import Mathlib

/-!
Verification development for the cost-tracker normalization/aggregation
pipeline (`src/streamlit_app.py`).

The embedding models the parsed JSON value fed to `process_data`, the
per-record validation/coercion pipeline of `process_data` (including the
Python semantics it relies on: dict `.get`, truthiness, `float()` on
strings, `+` on heterogeneous values, `datetime.strptime` with the two
format strings, `strftime("%Y-%m")`), and the pandas aggregation performed
by `plot_data` (filter by month, groupby/sum, sort descending, head 10,
appended "Total" row).

Numeric values are modelled as exact rationals: JSON/Python floats are
abstracted to ℚ, so IEEE rounding is outside the model; every claim
settled here is about branch structure, grouping, ordering and totals,
not about float rounding.
-/

/-- A parsed JSON value as produced by `json.load` (Python objects keep
insertion order; keys of one object are distinct after parsing, later
duplicates having overwritten earlier ones). Python ints and floats are
kept apart because `process_data`'s `isinstance` checks and `+` semantics
distinguish them; floats are abstracted to ℚ. -/
inductive Json where
  | null : Json
  | bool (b : Bool) : Json
  | int (n : Int) : Json
  | float (q : ℚ) : Json
  | str (s : String) : Json
  | arr (xs : List Json) : Json
  | obj (kvs : List (String × Json)) : Json

/-- The two kinds of uncaught Python exceptions the pipeline can raise:
`AttributeError` from calling `.items()` on a non-dict, and `TypeError`
from `+` on incompatible operand types. -/
inductive PyExn where
  | attributeError : PyExn
  | typeError : PyExn
deriving DecidableEq

/-- Python truthiness of a JSON-derived value (`not x` tests this):
`None`, `False`, zero, and empty containers/strings are falsy. -/
def truthy : Json → Bool
  | .null => false
  | .bool b => b
  | .int n => if n = 0 then false else true
  | .float q => if q = 0 then false else true
  | .str s => if s = "" then false else true
  | .arr xs => match xs with | [] => false | _ => true
  | .obj kvs => match kvs with | [] => false | _ => true

/-- `record.get(k)`: lookup in a dict (keys are distinct, so first match
is the binding). Returns `none` for an absent key, i.e. Python `None`. -/
def pyGet (fields : List (String × Json)) (k : String) : Option Json :=
  match fields with
  | [] => none
  | (k', v) :: rest => if k' = k then some v else pyGet rest k

/-- `record.get(k, d)`: lookup with a default. -/
def pyGetD (fields : List (String × Json)) (k : String) (d : Json) : Json :=
  (pyGet fields k).getD d

/-- Value of an ASCII digit character, `none` otherwise. -/
def digitVal? (c : Char) : Option Nat :=
  if '0' ≤ c ∧ c ≤ '9' then some (c.toNat - 48) else none

/-- Greedily split off a maximal run of leading ASCII digits. -/
def takeDigits : List Char → List Nat × List Char
  | [] => ([], [])
  | c :: rest =>
    match digitVal? c with
    | some d =>
      let p := takeDigits rest
      (d :: p.1, p.2)
    | none => ([], c :: rest)

/-- The number denoted by a big-endian digit list. -/
def natOfDigits (ds : List Nat) : Nat := ds.foldl (fun a d => a * 10 + d) 0

/-- Whitespace characters stripped by Python `float(str)`. -/
def isPyWs (c : Char) : Bool :=
  c = ' ' ∨ c = '\t' ∨ c = '\n' ∨ c = '\r' ∨ c = '\x0b' ∨ c = '\x0c'

/-- Strip leading and trailing whitespace. -/
def stripWs (cs : List Char) : List Char :=
  ((cs.dropWhile isPyWs).reverse.dropWhile isPyWs).reverse

/-- Consume an optional sign; returns whether it was a minus. -/
def parseSign : List Char → Bool × List Char
  | '+' :: r => (false, r)
  | '-' :: r => (true, r)
  | r => (false, r)

/-- Mantissa of a Python float literal: `digits [. digits]` or `. digits`
(`"123."` and `".5"` are both accepted, a lone `"."` is not). Returns the
integer part, the fraction digits' value and their count. -/
def parseMantissa (cs : List Char) : Option ((Nat × Nat × Nat) × List Char) :=
  let ip := takeDigits cs
  match ip.2 with
  | '.' :: r2 =>
    let fp := takeDigits r2
    if ip.1.isEmpty ∧ fp.1.isEmpty then none
    else some ((natOfDigits ip.1, natOfDigits fp.1, fp.1.length), fp.2)
  | _ => if ip.1.isEmpty then none else some ((natOfDigits ip.1, 0, 0), ip.2)

/-- Optional exponent part `e[sign]digits` of a float literal. -/
def parseExp (cs : List Char) : Option (Int × List Char) :=
  match cs with
  | c :: r1 =>
    if c = 'e' ∨ c = 'E' then
      let sp := parseSign r1
      let ds := takeDigits sp.2
      if ds.1.isEmpty then none
      else some ((if sp.1 = true then -(natOfDigits ds.1 : Int) else (natOfDigits ds.1 : Int)), ds.2)
    else some (0, cs)
  | [] => some (0, [])

/-- `(10 : ℚ) ^ e` for an integer exponent. -/
def qpow10 (e : Int) : ℚ :=
  if 0 ≤ e then (10 : ℚ) ^ e.toNat else ((10 : ℚ) ^ (-e).toNat)⁻¹

/-- Model of Python `float(s)` on strings, for the finite decimal
literal grammar: optional surrounding whitespace, optional sign,
`digits[.digits]` / `.digits` / `digits.`, optional exponent. The
non-finite literals (`inf`, `nan`) and digit-group underscores are
outside the model (mapped to `none`); no claim is evaluated on them. -/
def pyFloatParts? (s : String) : Option (Bool × Nat × Nat × Nat × Int) :=
  let cs := stripWs s.data
  let sp := parseSign cs
  match parseMantissa sp.2 with
  | none => none
  | some (m, r1) =>
    match parseExp r1 with
    | none => none
    | some (e, r2) =>
      if r2 = [] then some (sp.1, m.1, m.2.1, m.2.2, e) else none

/-- The rational value denoted by parsed float-literal parts
(sign, integer part, fraction value, fraction digit count, exponent). -/
def assembleFloat : Bool × Nat × Nat × Nat × Int → ℚ
  | (neg, ip, fp, fl, e) =>
    (if neg then -((ip : ℚ) + (fp : ℚ) / (10 : ℚ) ^ fl) else (ip : ℚ) + (fp : ℚ) / (10 : ℚ) ^ fl) * qpow10 e

def pyFloat? (s : String) : Option ℚ := (pyFloatParts? s).map assembleFloat

/-- A parsed `datetime.datetime` value. -/
structure PyDateTime where
  year : Nat
  month : Nat
  day : Nat
  hour : Nat
  minute : Nat
  second : Nat
  microsecond : Nat
deriving DecidableEq

/-- Read exactly four digits (the `%Y` pattern `\d\d\d\d` of CPython's
`_strptime`). -/
def read4 (cs : List Char) : Option (Nat × List Char) :=
  match cs with
  | c1 :: c2 :: c3 :: c4 :: r =>
    match digitVal? c1, digitVal? c2, digitVal? c3, digitVal? c4 with
    | some d1, some d2, some d3, some d4 => some (((d1 * 10 + d2) * 10 + d3) * 10 + d4, r)
    | _, _, _, _ => none
  | _ => none

/-- Read a one- or two-digit field, determinizing the CPython `_strptime`
alternations (e.g. `%m` is `1[0-2]|0[1-9]|[1-9]`): when two digits
follow, only the two-digit alternatives can produce an overall match
(the following literal is never a digit, so backtracking to the
one-digit branch always fails on the second digit); when a single digit
follows, only the one-digit branch applies. `twoOk` is the set of values
the two-digit alternatives accept, `oneOk` that of the one-digit one. -/
def readNum2or1 (twoOk : Nat → Bool) (oneOk : Nat → Bool) (cs : List Char) : Option (Nat × List Char) :=
  match cs with
  | c1 :: c2 :: r =>
    match digitVal? c1, digitVal? c2 with
    | some d1, some d2 => if twoOk (d1 * 10 + d2) then some (d1 * 10 + d2, r) else none
    | some d1, none => if oneOk d1 then some (d1, c2 :: r) else none
    | none, _ => none
  | [c1] =>
    match digitVal? c1 with
    | some d1 => if oneOk d1 then some (d1, []) else none
    | none => none
  | [] => none

/-- Consume one expected literal character. -/
def litC (c : Char) (cs : List Char) : Option (List Char) :=
  match cs with
  | c2 :: r => if c2 = c then some r else none
  | [] => none

/-- Shared prefix of both accepted formats:
`%Y-%m-%dT%H:%M:%S` with CPython `_strptime` field regexes
(`%m`: `1[0-2]|0[1-9]|[1-9]`, `%d`: `3[01]|[12]\d|0[1-9]|[1-9]`,
`%H`: `2[0-3]|[0-1]\d|\d`, `%M`: `[0-5]\d|\d`, `%S`: `6[0-1]|[0-5]\d|\d`). -/
def parseCore (cs : List Char) : Option (PyDateTime × List Char) :=
  match read4 cs with
  | none => none
  | some (y, r0) =>
    match litC '-' r0 with
    | none => none
    | some r1 =>
      match readNum2or1 (fun v => 1 ≤ v && v ≤ 12) (fun d => 1 ≤ d) r1 with
      | none => none
      | some (mo, r2) =>
        match litC '-' r2 with
        | none => none
        | some r3 =>
          match readNum2or1 (fun v => 1 ≤ v && v ≤ 31) (fun x => 1 ≤ x) r3 with
          | none => none
          | some (d, r4) =>
            match litC 'T' r4 with
            | none => none
            | some r5 =>
              match readNum2or1 (fun v => v ≤ 23) (fun _ => true) r5 with
              | none => none
              | some (h, r6) =>
                match litC ':' r6 with
                | none => none
                | some r7 =>
                  match readNum2or1 (fun v => v ≤ 59) (fun _ => true) r7 with
                  | none => none
                  | some (mi, r8) =>
                    match litC ':' r8 with
                    | none => none
                    | some r9 =>
                      match readNum2or1 (fun v => v ≤ 61) (fun _ => true) r9 with
                      | none => none
                      | some (s, r10) => some (⟨y, mo, d, h, mi, s, 0⟩, r10)

/-- Gregorian leap year. -/
def isLeap (y : Nat) : Bool := (y % 4 = 0 && y % 100 ≠ 0) || y % 400 = 0

/-- Days in a month. -/
def daysInMonth (y mo : Nat) : Nat :=
  match mo with
  | 2 => if isLeap y then 29 else 28
  | 4 => 30
  | 6 => 30
  | 9 => 30
  | 11 => 30
  | _ => 31

/-- The range checks of the `datetime.datetime` constructor (which
`strptime` calls last, turning e.g. Feb 30, year 0000, or a leap-second
`%S` value of 60/61 into a `ValueError`). Bounds already enforced by the
field regexes are repeated here for faithfulness. -/
def validDate (dt : PyDateTime) : Bool :=
  1 ≤ dt.year && dt.year ≤ 9999 && 1 ≤ dt.month && dt.month ≤ 12 &&
  1 ≤ dt.day && dt.day ≤ daysInMonth dt.year dt.month &&
  dt.hour ≤ 23 && dt.minute ≤ 59 && dt.second ≤ 59 && dt.microsecond ≤ 999999

/-- `datetime.strptime(s, "%Y-%m-%dT%H:%M:%S.%f")`: the core prefix, a
literal dot, then 1–6 digits of `%f` (greedily matched; any leftover
input means "unconverted data remains", a failure). -/
def parseFmtFrac (s : String) : Option PyDateTime :=
  match parseCore s.data with
  | none => none
  | some (dt0, r) =>
    match litC '.' r with
    | none => none
    | some r1 =>
      let ds := takeDigits r1
      if ds.2 = [] ∧ 1 ≤ ds.1.length ∧ ds.1.length ≤ 6 then
        let dt := { dt0 with microsecond := natOfDigits ds.1 * 10 ^ (6 - ds.1.length) }
        if validDate dt then some dt else none
      else none

/-- `datetime.strptime(s, "%Y-%m-%dT%H:%M:%S")`: the core prefix with no
input left over. -/
def parseFmtNoFrac (s : String) : Option PyDateTime :=
  match parseCore s.data with
  | none => none
  | some (dt, r) => if r = [] ∧ validDate dt then some dt else none

/-- The timestamp-parsing loop of `process_data`: try the fractional
format first, then the plain one; first success wins. -/
def parseTs (s : String) : Option PyDateTime :=
  (parseFmtFrac s).orElse fun _ => parseFmtNoFrac s

/-- The ASCII character of a digit. -/
def digitChar (d : Nat) : Char := Char.ofNat (48 + d)

/-- Big-endian digits of a number (fuel-structured so that it reduces in
the kernel; the fuel `n + 1` always suffices). -/
def natDigitsAux : Nat → Nat → List Nat
  | 0, _ => []
  | fuel + 1, n => if n < 10 then [n] else natDigitsAux fuel (n / 10) ++ [n % 10]

/-- Big-endian digits of a number. -/
def natDigits (n : Nat) : List Nat := natDigitsAux (n + 1) n

/-- Unpadded decimal rendering, as glibc `strftime` prints `%Y`
(so year 5 renders as `"5"`, not `"0005"`; parsed years are 1–9999). -/
def decimalStr (n : Nat) : String := ⟨(natDigits n).map digitChar⟩

/-- Two-digit zero-padded rendering (for `%m`, values 1–12). -/
def pad2 (n : Nat) : String := ⟨[digitChar (n / 10), digitChar (n % 10)]⟩

/-- `timestamp.strftime("%Y-%m")` on Linux/glibc: unpadded year, two-digit
month. -/
def strftimeYM (dt : PyDateTime) : String := decimalStr dt.year ++ "-" ++ pad2 dt.month

/-- Two zero-padded digit characters (values up to 99). -/
def pad2Chars (n : Nat) : List Char := [digitChar (n / 10), digitChar (n % 10)]

/-- Four zero-padded digit characters (values up to 9999). -/
def pad4Chars (n : Nat) : List Char :=
  [digitChar (n / 1000), digitChar (n / 100 % 10), digitChar (n / 10 % 10), digitChar (n % 10)]

/-- The characters of a canonically zero-padded
`YYYY-MM-DDTHH:MM:SS` timestamp. -/
def canonChars (y mo d h mi s : Nat) : List Char :=
  pad4Chars y ++ '-' :: (pad2Chars mo ++ '-' :: (pad2Chars d ++ 'T' ::
    (pad2Chars h ++ ':' :: (pad2Chars mi ++ ':' :: pad2Chars s))))

/-- A canonically zero-padded `YYYY-MM-DDTHH:MM:SS` timestamp string. -/
def canonicalTs (y mo d h mi s : Nat) : String := ⟨canonChars y mo d h mi s⟩

/-- The first `n` characters of a string (the spec's "first 7 characters
of the ISO date portion" is `firstChars 7`). -/
def firstChars (n : Nat) (s : String) : String := ⟨s.data.take n⟩

/-- The diagnostics `process_data` emits via `st.error`, one constructor
per message site (source lines 52, 57, 62, 75, 85). -/
inductive Diag where
  | invalidDataFormat (user : String) : Diag
  | invalidRecordFormat (record : Json) : Diag
  | missingOrInvalidTimestamp (record : Json) : Diag
  | invalidTimestampFormat (ts : String) : Diag
  | invalidCostValue (model : Json) (cost : Json) : Diag

/-- One row appended to `processed_data` by `process_data`. `model` and
`total_tokens` hold whatever Python value the record produced (the code
never coerces them), `total_cost` is always a float by the time the row
is built. -/
structure PyRow where
  month : String
  model : Json
  total_cost : ℚ
  user : String
  total_tokens : Json

/-- Python `+` on JSON-derived values, as used for
`record.get("input_tokens", 0) + record.get("output_tokens", 0)`:
numbers add (bool counting as int), `str + str` and `list + list`
concatenate, everything else raises `TypeError`. -/
def pyAdd : Json → Json → Except PyExn Json
  | .int a, .int b => .ok (.int (a + b))
  | .int a, .float q => .ok (.float ((a : ℚ) + q))
  | .float q, .int a => .ok (.float (q + (a : ℚ)))
  | .float a, .float b => .ok (.float (a + b))
  | .bool a, .bool b => .ok (.int ((if a then 1 else 0) + (if b then 1 else 0)))
  | .bool a, .int b => .ok (.int ((if a then 1 else 0) + b))
  | .int a, .bool b => .ok (.int (a + (if b then 1 else 0)))
  | .bool a, .float q => .ok (.float ((if a then 1 else 0) + q))
  | .float q, .bool b => .ok (.float (q + (if b then 1 else 0)))
  | .str a, .str b => .ok (.str (a ++ b))
  | .arr a, .arr b => .ok (.arr (a ++ b))
  | _, _ => .error .typeError

/-- Outcome of the `total_cost` coercion
`float(cost) if isinstance(cost, (int, float, str)) else 0.0` under
`try/except ValueError`: numbers coerce (a Python bool is an `int`
instance), strings go through `float()` and fail with `ValueError` on a
non-numeric string, and any other type silently becomes `0.0`. -/
inductive CostStep where
  | val (q : ℚ) : CostStep
  | err : CostStep

/-- The cost coercion of source lines 82–86. -/
def coerceCost : Json → CostStep
  | .bool b => .val (if b then 1 else 0)
  | .int n => .val (n : ℚ)
  | .float q => .val q
  | .str s =>
    match pyFloat? s with
    | some q => .val q
    | none => .err
  | _ => .val 0

/-- `isinstance(cost, (int, float, str))`: a Python bool is an instance
of `int`. -/
def isinstanceNumStr : Json → Bool
  | .bool _ => true
  | .int _ => true
  | .float _ => true
  | .str _ => true
  | _ => false

/-- Outcome of the per-record loop body: a skip (`continue` after one
`st.error`), an uncaught exception, or an appended row. -/
inductive Step where
  | skip (d : Diag) : Step
  | fault (e : PyExn) : Step
  | row (r : PyRow) : Step

/-- The loop body of `process_data` for one record of user `u`
(source lines 55–98). -/
def processRecord (u : String) (j : Json) : Step :=
  match j with
  | .obj fields =>
    match pyGet fields "timestamp" with
    | none => .skip (.missingOrInvalidTimestamp (.obj fields))
    | some ts =>
      if truthy ts = false then .skip (.missingOrInvalidTimestamp (.obj fields))
      else
        match ts with
        | .str s =>
          match parseTs s with
          | none => .skip (.invalidTimestampFormat s)
          | some dt =>
            match coerceCost (pyGetD fields "total_cost" (.str "0")) with
            | .err =>
              .skip (.invalidCostValue (pyGetD fields "model" (.str "Unknown Model")) (pyGetD fields "total_cost" (.str "0")))
            | .val q =>
              match pyAdd (pyGetD fields "input_tokens" (.int 0)) (pyGetD fields "output_tokens" (.int 0)) with
              | .error e => .fault e
              | .ok tv => .row ⟨strftimeYM dt, pyGetD fields "model" (.str "Unknown Model"), q, u, tv⟩
        | _ => .skip (.missingOrInvalidTimestamp (.obj fields))
  | _ => .skip (.invalidRecordFormat j)

/-- The inner `for record in records` loop: skips accumulate diagnostics,
rows accumulate, an uncaught exception aborts everything. -/
def processGroup (u : String) : List Json → Except PyExn (List PyRow × List Diag)
  | [] => .ok ([], [])
  | r :: rest =>
    match processRecord u r with
    | .fault e => .error e
    | .skip d =>
      match processGroup u rest with
      | .error e => .error e
      | .ok (rs, ds) => .ok (rs, d :: ds)
    | .row pr =>
      match processGroup u rest with
      | .error e => .error e
      | .ok (rs, ds) => .ok (pr :: rs, ds)

/-- The outer `for user_email, records in data.items()` loop: a non-list
group value is skipped with one diagnostic (source lines 51–53). -/
def processItems : List (String × Json) → Except PyExn (List PyRow × List Diag)
  | [] => .ok ([], [])
  | (u, v) :: rest =>
    match v with
    | .arr records =>
      match processGroup u records with
      | .error e => .error e
      | .ok (rs, ds) =>
        match processItems rest with
        | .error e => .error e
        | .ok (rs2, ds2) => .ok (rs ++ rs2, ds ++ ds2)
    | _ =>
      match processItems rest with
      | .error e => .error e
      | .ok (rs, ds) => .ok (rs, Diag.invalidDataFormat u :: ds)

/-- `process_data(data)`: iterates `data.items()`, which raises
`AttributeError` unless the top-level value is an object (in particular a
top-level JSON array faults); an uncaught exception discards all rows. -/
def process_data : Json → Except PyExn (List PyRow × List Diag)
  | .obj kvs => processItems kvs
  | _ => .error .attributeError

/-- Whether a pipeline result is an uncaught `AttributeError`. -/
def isAttrError (e : Except PyExn (List PyRow × List Diag)) : Bool :=
  match e with
  | .error .attributeError => true
  | _ => false

/-- The typed table row consumed by `plot_data`: the pandas DataFrame
columns in the ordinary case where `model` is a string and
`total_tokens` a number (pandas raises on mixed-type columns, so the
aggregate claims are about this typed case). -/
structure CanonicalRow where
  month : String
  model : String
  total_cost : ℚ
  user : String
  total_tokens : ℚ
deriving DecidableEq

/-- The early-return condition of `plot_data` (`st.error` + `return`). -/
inductive AggError where
  | noDataForMonth : AggError
deriving DecidableEq

/-- The three aggregate tables `plot_data` builds for a month. -/
structure AggTables where
  modelTokens : List (String × ℚ)
  modelCost : List (String × ℚ)
  userCost : List (String × ℚ)
deriving DecidableEq

/-- Distinct grouping keys of a key/value list, in first-occurrence
order. -/
def keysOf (ps : List (String × ℚ)) : List String := (ps.map Prod.fst).dedup

/-- Sum of the values grouped under one key. -/
def fiberSum (k : String) (ps : List (String × ℚ)) : ℚ :=
  ((ps.filter fun p => p.1 = k).map Prod.snd).sum

/-- `groupby(key)[val].sum().reset_index()`: one row per distinct key,
keys in ascending order (pandas `groupby` sorts keys by default), each
paired with the sum of its group. -/
def groupSum (ps : List (String × ℚ)) : List (String × ℚ) :=
  (List.insertionSort (fun a b => a ≤ b) (keysOf ps)).map fun k => (k, fiberSum k ps)

/-- Descending-by-value order on table rows (the `sort_values(...,
ascending=False)` key; tie order among equal sums is not part of any
contract here). -/
def descVal (a b : String × ℚ) : Prop := b.2 ≤ a.2

instance : DecidableRel descVal := fun a b => inferInstanceAs (Decidable (b.2 ≤ a.2))

instance : IsTotal (String × ℚ) descVal := ⟨fun a b => le_total b.2 a.2⟩

instance : IsTrans (String × ℚ) descVal := ⟨fun _ _ _ h1 h2 => le_trans h2 h1⟩

/-- `sort_values(by=value, ascending=False)`. -/
def sortDesc (ps : List (String × ℚ)) : List (String × ℚ) := List.insertionSort descVal ps

/-- `plot_data(data, month)` (source lines 109–173): filter the rows to
the month; with no match report "No data available" and build nothing;
otherwise build the model-tokens top 10, the model-cost top 10, and the
user-cost table with its appended synthetic "Total" row, whose value is
`month_data_users["total_cost"].sum()` — the sum of the per-user sums. -/
def plot_data (rows : List CanonicalRow) (m : String) : Except AggError AggTables :=
  let md := rows.filter fun r => r.month = m
  if md.isEmpty then .error .noDataForMonth
  else
    let mt := (sortDesc (groupSum (md.map fun r => (r.model, r.total_tokens)))).take 10
    let mc := (sortDesc (groupSum (md.map fun r => (r.model, r.total_cost)))).take 10
    let ug := sortDesc (groupSum (md.map fun r => (r.user, r.total_cost)))
    .ok ⟨mt, mc, ug ++ [("Total", (ug.map Prod.snd).sum)]⟩

/-- The model-tokens table of a `plot_data` result (empty on the
no-data signal). -/
def modelTokensOf (e : Except AggError AggTables) : List (String × ℚ) :=
  match e with
  | .ok t => t.modelTokens
  | .error _ => []

/-- A `process_data` row as a typed `plot_data` row, when its `model` is
a string and its `total_tokens` a number. -/
def toCanonical? (r : PyRow) : Option CanonicalRow :=
  match r.model, r.total_tokens with
  | .str m, .int n => some ⟨r.month, m, r.total_cost, r.user, (n : ℚ)⟩
  | .str m, .float q => some ⟨r.month, m, r.total_cost, r.user, q⟩
  | _, _ => none

/-- The full pipeline for one month: normalize, then aggregate the typed
rows. -/
def pipelineTables (d : Json) (m : String) : Except PyExn (Except AggError AggTables) :=
  match process_data d with
  | .error e => .error e
  | .ok (rows, _) => .ok (plot_data (rows.filterMap toCanonical?) m)

example : parseTs "2024-11-01T10:00:00" = some ⟨2024, 11, 1, 10, 0, 0, 0⟩ := rfl
example : parseTs "2024-11-01T10:00:00.5" = some ⟨2024, 11, 1, 10, 0, 0, 500000⟩ := rfl
example : parseTs "2024-1-02T03:04:05" = some ⟨2024, 1, 2, 3, 4, 5, 0⟩ := rfl
example : parseTs "2024-02-30T00:00:00" = none := rfl
example : parseTs "2024-11-01" = none := rfl
example : parseTs "2024-11-01T10:00:61" = none := rfl
example : strftimeYM ⟨2024, 1, 2, 3, 4, 5, 0⟩ = "2024-01" := rfl
example : strftimeYM ⟨500, 1, 2, 3, 4, 5, 0⟩ = "500-01" := rfl
example : pyFloatParts? "12.5" = some (false, 12, 5, 1, 0) := rfl
example : pyFloat? "12.5" = some (25 / 2) := by
  have h : pyFloatParts? "12.5" = some (false, 12, 5, 1, 0) := rfl
  rw [pyFloat?, h]
  norm_num [assembleFloat, qpow10]
example : pyFloat? "abc" = none := rfl
example : pyFloatParts? " -1.5e2 " = some (true, 1, 5, 1, 2) := rfl
example : pyFloatParts? "0" = some (false, 0, 0, 0, 0) := rfl
example : pyFloat? "0" = some 0 := by
  have h : pyFloatParts? "0" = some (false, 0, 0, 0, 0) := rfl
  rw [pyFloat?, h]
  norm_num [assembleFloat, qpow10]
example :
    process_data (.obj [("a@x", .arr [.obj [("timestamp", .str "2024-11-01T10:00:00"), ("total_cost", .int 1)]])]) =
      .ok ([⟨"2024-11", .str "Unknown Model", 1, "a@x", .int 0⟩], []) := rfl
example : process_data (.arr []) = .error .attributeError := rfl
example :
    plot_data [⟨"2024-11", "m1", 10, "alice", 3⟩, ⟨"2024-11", "m1", 5, "bob", 4⟩] "2024-12" =
      .error .noDataForMonth := rfl
example :
    plot_data [⟨"2024-11", "m1", 10, "alice", 3⟩, ⟨"2024-11", "m2", 5, "bob", 4⟩] "2024-11" =
      .ok ⟨[("m2", 4), ("m1", 3)], [("m1", 10), ("m2", 5)], [("alice", 10), ("bob", 5), ("Total", 15)]⟩ := by
  norm_num +decide [plot_data, sortDesc, groupSum, keysOf, fiberSum, descVal,
    List.insertionSort, List.orderedInsert, List.dedup, List.insert, List.filter]

/-! ### Helper lemmas -/

theorem pyAdd_error_eq (a b : Json) (e : PyExn) (h : pyAdd a b = .error e) : e = .typeError := by
  cases a <;> cases b <;> simp [pyAdd] at h <;> exact h.symm

theorem processRecord_fault_eq (u : String) (j : Json) (e : PyExn)
    (h : processRecord u j = .fault e) : e = .typeError := by
  unfold processRecord at h
  repeat' split at h
  all_goals
    first
    | (cases h; done)
    | (cases h
       exact pyAdd_error_eq _ _ _ (by assumption))

theorem processGroup_error_eq (u : String) (rs : List Json) (e : PyExn)
    (h : processGroup u rs = .error e) : e = .typeError := by
  induction rs generalizing e with
  | nil => simp [processGroup] at h
  | cons r rest ih =>
    unfold processGroup at h
    repeat' split at h
    all_goals
      first
      | (cases h; done)
      | (cases h
         first
         | exact processRecord_fault_eq u r _ (by assumption)
         | exact ih _ (by assumption))

theorem processItems_error_eq (kvs : List (String × Json)) (e : PyExn)
    (h : processItems kvs = .error e) : e = .typeError := by
  induction kvs generalizing e with
  | nil => simp [processItems] at h
  | cons kv rest ih =>
    obtain ⟨u, v⟩ := kv
    unfold processItems at h
    repeat' split at h
    all_goals
      first
      | (cases h; done)
      | (cases h
         first
         | exact ih _ (by assumption)
         | exact processGroup_error_eq _ _ _ (by assumption))

/-! ### Claims -/

/-- C1 (amended): `process_data` handles only the mapping
(user-to-record-list) shape. For every top-level JSON array the call to
`data.items()` raises an uncaught `AttributeError`, so the flat-array
shape is not accepted; for every top-level object the shape dispatch
never raises an `AttributeError` — there is no structural shape
auto-detection. -/
theorem C1_only_mapping_shape (xs : List Json) (kvs : List (String × Json)) :
    process_data (.arr xs) = .error .attributeError ∧
    isAttrError (process_data (.obj kvs)) = false := by
  refine ⟨rfl, ?_⟩
  show isAttrError (processItems kvs) = false
  rcases hp : processItems kvs with e | p
  · have he := processItems_error_eq kvs e hp
    subst he
    rfl
  · rfl

/-- C1 counterexample: a well-formed flat array holding one valid record
is not processed into rows — `process_data` raises `AttributeError`,
refuting "the flat-array shape is accepted and processed without
fault". -/
theorem C1_flat_array_faults_cex :
    process_data (.arr [.obj [("timestamp", .str "2024-11-01T10:00:00"), ("total_cost", .int 1)]]) =
      .error .attributeError := rfl

/-- C4 (amended): for every record that yields a row, the row's `user`
is unconditionally the enclosing mapping key (a per-record `user` field
is ignored); the flat form, where `user` would be read from the record,
is not supported — a top-level array faults with `AttributeError`. -/
theorem C4_user_is_group_key (u : String) (fields : List (String × Json)) (r : PyRow)
    (h : processRecord u (.obj fields) = .row r) :
    r.user = u ∧ ∀ xs : List Json, process_data (.arr xs) = .error .attributeError := by
  refine ⟨?_, fun xs => rfl⟩
  unfold processRecord at h
  repeat' split at h
  all_goals first | (cases h; done) | (cases h; rfl)

/-- C4 witness: a record carrying `user = "bob"` inside the group of key
`"alice@x.com"` produces a row whose `user` is the key. -/
theorem C4_user_is_group_key_witness :
    ({ month := "2024-11", model := .str "Unknown Model", total_cost := ((1 : ℤ) : ℚ), user := "alice@x.com",
        total_tokens := .int 0 } : PyRow).user = "alice@x.com" ∧
    ∀ xs : List Json, process_data (.arr xs) = .error .attributeError :=
  C4_user_is_group_key "alice@x.com"
    [("timestamp", .str "2024-11-01T10:00:00"), ("total_cost", .int 1), ("user", .str "bob")] _ rfl

/-- C4 counterexample: the flat-form record of the spec's own example
(`user = "bob"`) produces no `CanonicalRow` at all — the whole call
faults — refuting "in flat input form the CanonicalRow's `user` equals
the record's own `user` field". -/
theorem C4_flat_user_cex :
    process_data (.arr [.obj [("timestamp", .str "2024-11-01T10:00:00"), ("total_cost", .int 1), ("user", .str "bob")]]) =
      .error .attributeError := rfl

/-- C8: a queried month with zero matching rows yields the distinct
"no data available" signal and none of the three aggregate tables. (The
query is a pure function of the row collection, which it does not
modify, so other months' queries are unaffected.) -/
theorem C8_no_data_signal (rows : List CanonicalRow) (m : String)
    (h : rows.filter (fun r => r.month = m) = []) :
    plot_data rows m = .error .noDataForMonth := by
  simp [plot_data, h]

/-- C8 witness at a concrete collection and month. -/
theorem C8_no_data_signal_witness :
    plot_data [⟨"2024-11", "gpt", 1, "alice", 2⟩] "2025-01" = .error .noDataForMonth :=
  C8_no_data_signal _ _ (by decide)

/-- C9: the pipeline is deterministic — running `process_data` and the
per-month aggregation twice on the identical parsed input yields
identical row collections and identical aggregate tables. -/
theorem C9_determinism (d1 d2 : Json) (h : d1 = d2) :
    process_data d1 = process_data d2 ∧ ∀ m, pipelineTables d1 m = pipelineTables d2 m := by
  subst h
  exact ⟨rfl, fun _ => rfl⟩

/-- C9 witness at a concrete input and month. -/
theorem C9_determinism_witness :
    process_data (.obj [("a@x", .arr [.obj [("timestamp", .str "2024-11-01T10:00:00")]])]) =
      process_data (.obj [("a@x", .arr [.obj [("timestamp", .str "2024-11-01T10:00:00")]])]) ∧
    pipelineTables (.obj [("a@x", .arr [.obj [("timestamp", .str "2024-11-01T10:00:00")]])]) "2024-11" =
      pipelineTables (.obj [("a@x", .arr [.obj [("timestamp", .str "2024-11-01T10:00:00")]])]) "2024-11" :=
  ⟨(C9_determinism _ _ rfl).1, (C9_determinism _ _ rfl).2 "2024-11"⟩

/-- C10: a record whose `timestamp` field is present, of string type,
and equal to `""` is skipped with the missing/invalid-timestamp
diagnostic (the `not timestamp_str` guard treats the falsy empty string
like an absent field): it produces no row and exactly one diagnostic. -/
theorem C10_empty_timestamp_skipped (u : String) (fields : List (String × Json))
    (h : pyGet fields "timestamp" = some (.str "")) :
    processRecord u (.obj fields) = .skip (.missingOrInvalidTimestamp (.obj fields)) ∧
    processItems [(u, .arr [.obj fields])] = .ok ([], [.missingOrInvalidTimestamp (.obj fields)]) := by
  have h1 : processRecord u (.obj fields) = .skip (.missingOrInvalidTimestamp (.obj fields)) := by
    simp [processRecord, h, truthy]
  exact ⟨h1, by simp [processItems, processGroup, h1]⟩

/-- C10 witness at a concrete record. -/
theorem C10_empty_timestamp_skipped_witness :
    processRecord "u@x" (.obj [("timestamp", .str "")]) =
      .skip (.missingOrInvalidTimestamp (.obj [("timestamp", .str "")])) ∧
    processItems [("u@x", .arr [.obj [("timestamp", .str "")]])] =
      .ok ([], [.missingOrInvalidTimestamp (.obj [("timestamp", .str "")])]) :=
  C10_empty_timestamp_skipped "u@x" _ rfl

/-- C2 (amended): for a record that passes the timestamp checks, the
`total_cost` handling is: an absent field defaults via the string `"0"`
to `0.0`; an `int`/`float`/`bool` value is coerced to float; a string is
passed to `float()` and, when that fails, the record is skipped with
exactly one diagnostic and no row; a numeric string coerces to its
value; but a value of any other type (e.g. `null`, list, object) is
NOT skipped — it is silently replaced by `0.0` and the record is kept. -/
theorem C2_cost_branches (u : String) (fields : List (String × Json)) (ts : String) (dt : PyDateTime)
    (hts : pyGet fields "timestamp" = some (.str ts)) (htr : truthy (.str ts) = true)
    (hp : parseTs ts = some dt) :
    (∀ s, pyGetD fields "total_cost" (.str "0") = .str s → pyFloat? s = none →
      processRecord u (.obj fields) =
        .skip (.invalidCostValue (pyGetD fields "model" (.str "Unknown Model")) (.str s))) ∧
    (∀ s, pyGetD fields "total_cost" (.str "0") = .str s → pyFloat? s = none →
      processItems [(u, .arr [.obj fields])] =
        .ok ([], [.invalidCostValue (pyGetD fields "model" (.str "Unknown Model")) (.str s)])) ∧
    (∀ tv, pyAdd (pyGetD fields "input_tokens" (.int 0)) (pyGetD fields "output_tokens" (.int 0)) = .ok tv →
      ∀ q, coerceCost (pyGetD fields "total_cost" (.str "0")) = .val q →
        processRecord u (.obj fields) =
          .row ⟨strftimeYM dt, pyGetD fields "model" (.str "Unknown Model"), q, u, tv⟩) ∧
    (pyGet fields "total_cost" = none →
      pyGetD fields "total_cost" (.str "0") = .str "0" ∧ coerceCost (.str "0") = .val 0) ∧
    (∀ n : Int, coerceCost (.int n) = .val (n : ℚ)) ∧
    (∀ q : ℚ, coerceCost (.float q) = .val q) ∧
    (∀ s q, pyFloat? s = some q → coerceCost (.str s) = .val q) ∧
    (∀ c, isinstanceNumStr c = false → coerceCost c = .val 0) := by
  refine ⟨?_, ?_, ?_, ?_, fun n => rfl, fun q => rfl, ?_, ?_⟩
  · intro s hs hf
    have hc : coerceCost (.str s) = .err := by
      simp [coerceCost, hf]
    simp [processRecord, hts, htr, hp, hs, hc]
  · intro s hs hf
    have hc : coerceCost (.str s) = .err := by
      simp [coerceCost, hf]
    have h1 : processRecord u (.obj fields) =
        .skip (.invalidCostValue (pyGetD fields "model" (.str "Unknown Model")) (.str s)) := by
      simp [processRecord, hts, htr, hp, hs, hc]
    simp [processItems, processGroup, h1]
  · intro tv htv q hq
    simp [processRecord, hts, htr, hp, hq, htv]
  · intro habs
    constructor
    · simp [pyGetD, habs]
    · have h1 : coerceCost (.str "0") = .val (assembleFloat (false, 0, 0, 0, 0)) := rfl
      have hz : assembleFloat (false, 0, 0, 0, 0) = 0 := by
        norm_num [assembleFloat, qpow10]
      rw [h1, hz]
  · intro s q hsq
    simp [coerceCost, hsq]
  · intro c hc
    cases c <;> simp [isinstanceNumStr] at hc <;> rfl

/-- C2 witness: a record with `total_cost: "12.5"` yields a row whose
cost is the float `12.5`. -/
theorem C2_cost_branches_witness :
    processRecord "u@x" (.obj [("timestamp", .str "2024-11-01T10:00:00"), ("total_cost", .str "12.5")]) =
      .row ⟨"2024-11", .str "Unknown Model", 25 / 2, "u@x", .int 0⟩ := by
  have hv : pyFloat? "12.5" = some (25 / 2) := by
    have h : pyFloatParts? "12.5" = some (false, 12, 5, 1, 0) := rfl
    rw [pyFloat?, h]
    norm_num [assembleFloat, qpow10]
  have hc : coerceCost (pyGetD [("timestamp", Json.str "2024-11-01T10:00:00"), ("total_cost", Json.str "12.5")]
      "total_cost" (.str "0")) = .val (25 / 2) := by
    show coerceCost (.str "12.5") = .val (25 / 2)
    simp [coerceCost, hv]
  exact (C2_cost_branches "u@x"
    [("timestamp", .str "2024-11-01T10:00:00"), ("total_cost", .str "12.5")]
    "2024-11-01T10:00:00" ⟨2024, 11, 1, 10, 0, 0, 0⟩ rfl rfl rfl).2.2.1
    (.int 0) rfl (25 / 2) hc

/-- C2 counterexample: a record whose `total_cost` is `null` (an
unsupported type, neither number nor string) is NOT skipped and gets no
diagnostic — it is kept as a row with `total_cost = 0.0` — refuting "if
the field has an unsupported type, the record is skipped with exactly
one diagnostic". -/
theorem C2_unsupported_type_kept_cex :
    process_data (.obj [("u@x", .arr [.obj [("timestamp", .str "2024-11-01T10:00:00"), ("total_cost", .null)]])]) =
      .ok ([⟨"2024-11", .str "Unknown Model", 0, "u@x", .int 0⟩], []) := rfl

/-- C3 (amended): `total_tokens` is the Python `+` of the raw
`input_tokens`/`output_tokens` values, each defaulting to `0` only when
absent. Numbers add; two strings (or two lists) concatenate; a
type-incompatible pair (e.g. a string and the default `0`) raises an
uncaught `TypeError` that aborts the entire batch and discards every
row — a non-numeric field is NOT treated as `0`, and one bad record
does abort the remaining records. -/
theorem C3_tokens_python_add (u : String) (fields : List (String × Json)) (ts : String)
    (dt : PyDateTime) (q : ℚ)
    (hts : pyGet fields "timestamp" = some (.str ts)) (htr : truthy (.str ts) = true)
    (hp : parseTs ts = some dt)
    (hc : coerceCost (pyGetD fields "total_cost" (.str "0")) = .val q) :
    (∀ tv, pyAdd (pyGetD fields "input_tokens" (.int 0)) (pyGetD fields "output_tokens" (.int 0)) = .ok tv →
      processRecord u (.obj fields) =
        .row ⟨strftimeYM dt, pyGetD fields "model" (.str "Unknown Model"), q, u, tv⟩) ∧
    (∀ e, pyAdd (pyGetD fields "input_tokens" (.int 0)) (pyGetD fields "output_tokens" (.int 0)) = .error e →
      processRecord u (.obj fields) = .fault e) ∧
    (∀ r rest e, processRecord u r = .fault e → processGroup u (r :: rest) = .error e) ∧
    (∀ rs more e, processGroup u rs = .error e → process_data (.obj ((u, .arr rs) :: more)) = .error e) := by
  refine ⟨?_, ?_, ?_, ?_⟩
  · intro tv htv
    simp [processRecord, hts, htr, hp, hc, htv]
  · intro e he
    simp [processRecord, hts, htr, hp, hc, he]
  · intro r rest e hr
    simp [processGroup, hr]
  · intro rs more e hg
    show processItems ((u, .arr rs) :: more) = .error e
    simp [processItems, hg]

/-- C3 witness: `input_tokens: 3, output_tokens: 4` yields
`total_tokens = 7`. -/
theorem C3_tokens_python_add_witness :
    processRecord "u@x"
      (.obj [("timestamp", .str "2024-11-01T10:00:00"), ("total_cost", .int 1),
             ("input_tokens", .int 3), ("output_tokens", .int 4)]) =
      .row ⟨"2024-11", .str "Unknown Model", ((1 : ℤ) : ℚ), "u@x", .int 7⟩ :=
  (C3_tokens_python_add "u@x"
    [("timestamp", .str "2024-11-01T10:00:00"), ("total_cost", .int 1),
     ("input_tokens", .int 3), ("output_tokens", .int 4)]
    "2024-11-01T10:00:00" ⟨2024, 11, 1, 10, 0, 0, 0⟩ ((1 : ℤ) : ℚ)
    rfl rfl rfl rfl).1 (.int 7) rfl

/-- C3 counterexample: a batch with one valid record followed by one
whose `input_tokens` is the string `"3"` does not skip the bad record —
the uncaught `TypeError` aborts the whole call and the valid record's
row is lost too — refuting "non-numeric token fields are treated as 0"
and "remaining records are still processed". -/
theorem C3_batch_abort_cex :
    process_data (.obj [("u@x", .arr
      [.obj [("timestamp", .str "2024-11-01T10:00:00")],
       .obj [("timestamp", .str "2024-11-02T10:00:00"), ("input_tokens", .str "3")]])]) =
      .error .typeError := rfl

theorem sum_ite_not_mem (ks : List String) (k0 : String) (v : ℚ) (h : k0 ∉ ks) :
    (ks.map fun k => if k0 = k then v else 0).sum = 0 := by
  induction ks with
  | nil => rfl
  | cons a t ih =>
    simp only [List.mem_cons, not_or] at h
    simp [if_neg h.1, ih h.2]

theorem sum_ite_mem (ks : List String) (k0 : String) (v : ℚ) (hnd : ks.Nodup) (hm : k0 ∈ ks) :
    (ks.map fun k => if k0 = k then v else 0).sum = v := by
  induction ks with
  | nil => cases hm
  | cons a t ih =>
    rcases List.nodup_cons.mp hnd with ⟨hna, hnt⟩
    rcases List.mem_cons.mp hm with h1 | h1
    · subst h1
      simp [sum_ite_not_mem t k0 v hna]
    · have hne : k0 ≠ a := by
        rintro rfl
        exact hna h1
      simp [if_neg hne, ih hnt h1]

theorem fiberSum_cons (k k0 : String) (v : ℚ) (t : List (String × ℚ)) :
    fiberSum k ((k0, v) :: t) = (if k0 = k then v else 0) + fiberSum k t := by
  by_cases h : k0 = k <;> simp [fiberSum, List.filter_cons, h]

theorem sum_fiberSum (ps : List (String × ℚ)) (ks : List String) (hnd : ks.Nodup)
    (hcov : ∀ p ∈ ps, p.1 ∈ ks) :
    (ks.map fun k => fiberSum k ps).sum = (ps.map Prod.snd).sum := by
  induction ps with
  | nil => simp [fiberSum]
  | cons p t ih =>
    obtain ⟨k0, v⟩ := p
    have hm : k0 ∈ ks := hcov (k0, v) (List.mem_cons_self _ _)
    have hcov2 : ∀ p ∈ t, p.1 ∈ ks := fun p hp => hcov p (List.mem_cons_of_mem _ hp)
    simp only [fiberSum_cons]
    rw [List.sum_map_add, sum_ite_mem ks k0 v hnd hm, ih hcov2]
    simp

theorem sum_groupSum (ps : List (String × ℚ)) :
    ((groupSum ps).map Prod.snd).sum = (ps.map Prod.snd).sum := by
  unfold groupSum
  rw [List.map_map]
  have h1 : ((List.insertionSort (fun a b => a ≤ b) (keysOf ps)).map
      (Prod.snd ∘ fun k => (k, fiberSum k ps))).sum =
      ((keysOf ps).map (Prod.snd ∘ fun k => (k, fiberSum k ps))).sum :=
    ((List.perm_insertionSort _ _).map _).sum_eq
  rw [h1]
  exact sum_fiberSum ps (keysOf ps) (List.nodup_dedup _)
    (fun p hp => List.mem_dedup.mpr (List.mem_map_of_mem _ hp))

theorem sum_sortDesc (ps : List (String × ℚ)) :
    ((sortDesc ps).map Prod.snd).sum = (ps.map Prod.snd).sum :=
  ((List.perm_insertionSort _ _).map _).sum_eq

theorem mem_sortDesc (ps : List (String × ℚ)) (x : String × ℚ) :
    x ∈ sortDesc ps ↔ x ∈ ps :=
  (List.perm_insertionSort _ _).mem_iff

theorem sorted_sortDesc (ps : List (String × ℚ)) :
    List.Sorted descVal (sortDesc ps) :=
  List.sorted_insertionSort descVal ps

theorem mem_groupSum (ps : List (String × ℚ)) (u : String) (q : ℚ) :
    (u, q) ∈ groupSum ps ↔ u ∈ ps.map Prod.fst ∧ q = fiberSum u ps := by
  unfold groupSum
  rw [List.mem_map]
  constructor
  · rintro ⟨k, hk, hkq⟩
    have h1 : k = u := congrArg Prod.fst hkq
    subst h1
    have h2 : fiberSum k ps = q := congrArg Prod.snd hkq
    refine ⟨?_, h2.symm⟩
    exact List.mem_dedup.mp ((List.perm_insertionSort _ _).mem_iff.mp hk)
  · rintro ⟨hu, rfl⟩
    exact ⟨u, (List.perm_insertionSort _ _).mem_iff.mpr (List.mem_dedup.mpr hu), rfl⟩

theorem fiberSum_map (md : List CanonicalRow) (f : CanonicalRow → String) (g : CanonicalRow → ℚ)
    (u : String) :
    fiberSum u (md.map fun r => (f r, g r)) = ((md.filter fun r => f r = u).map g).sum := by
  unfold fiberSum
  rw [List.filter_map, List.map_map]
  rfl

/-- C6: for a queried month with at least one matching row, the
user-cost table is the per-user grouping of the month's rows with
summed `total_cost`, sorted in descending order of that sum, with
exactly one trailing synthetic row `("Total", total)` appended, whose
value equals the sum of `total_cost` over all matching rows. -/
theorem C6_user_cost_table (rows : List CanonicalRow) (m : String)
    (h : rows.filter (fun r => r.month = m) ≠ []) :
    ∃ T gs, plot_data rows m = .ok T ∧
      T.userCost =
        gs ++ [("Total", ((rows.filter fun r => r.month = m).map fun r => r.total_cost).sum)] ∧
      List.Sorted descVal gs ∧
      ∀ u q, (u, q) ∈ gs ↔
        (u ∈ (rows.filter fun r => r.month = m).map (fun r => r.user) ∧
         q = (((rows.filter fun r => r.month = m).filter fun r => r.user = u).map
              fun r => r.total_cost).sum) := by
  have hne : (rows.filter fun r => r.month = m).isEmpty = false := by
    rcases hf : rows.filter fun r => r.month = m with _ | ⟨a, t⟩
    · exact absurd hf h
    · simp [hf]
  refine ⟨⟨(sortDesc (groupSum ((rows.filter fun r => r.month = m).map fun r => (r.model, r.total_tokens)))).take 10,
      (sortDesc (groupSum ((rows.filter fun r => r.month = m).map fun r => (r.model, r.total_cost)))).take 10,
      sortDesc (groupSum ((rows.filter fun r => r.month = m).map fun r => (r.user, r.total_cost))) ++
        [("Total",
          ((sortDesc (groupSum ((rows.filter fun r => r.month = m).map fun r => (r.user, r.total_cost)))).map
            Prod.snd).sum)]⟩,
    sortDesc (groupSum ((rows.filter fun r => r.month = m).map fun r => (r.user, r.total_cost))),
    ?_, ?_, sorted_sortDesc _, ?_⟩
  · simp only [plot_data, hne, Bool.false_eq_true, if_false]
  · show _ ++ _ = _ ++ _
    congr 2
    rw [sum_sortDesc, sum_groupSum, List.map_map]
    rfl
  · intro u q
    rw [mem_sortDesc, mem_groupSum]
    have h1 : ((rows.filter fun r => r.month = m).map fun r => (r.user, r.total_cost)).map Prod.fst =
        (rows.filter fun r => r.month = m).map fun r => r.user := by
      rw [List.map_map]
      rfl
    rw [h1, fiberSum_map]

/-- C6 witness at the spec's example (`alice: 10, bob: 5` for one
month). -/
theorem C6_user_cost_table_witness :
    ∃ T gs,
      plot_data [⟨"2024-11", "m", 10, "alice", 0⟩, ⟨"2024-11", "m", 5, "bob", 0⟩] "2024-11" = .ok T ∧
      T.userCost =
        gs ++ [("Total",
          (([⟨"2024-11", "m", 10, "alice", 0⟩, ⟨"2024-11", "m", 5, "bob", 0⟩].filter
            fun r : CanonicalRow => r.month = "2024-11").map fun r => r.total_cost).sum)] ∧
      List.Sorted descVal gs ∧
      ∀ u q, (u, q) ∈ gs ↔
        (u ∈ ([⟨"2024-11", "m", 10, "alice", 0⟩, ⟨"2024-11", "m", 5, "bob", 0⟩].filter
            fun r : CanonicalRow => r.month = "2024-11").map (fun r => r.user) ∧
         q = ((([⟨"2024-11", "m", 10, "alice", 0⟩, ⟨"2024-11", "m", 5, "bob", 0⟩].filter
            fun r : CanonicalRow => r.month = "2024-11").filter fun r => r.user = u).map
              fun r => r.total_cost).sum) :=
  C6_user_cost_table [⟨"2024-11", "m", 10, "alice", 0⟩, ⟨"2024-11", "m", 5, "bob", 0⟩] "2024-11"
    (by decide)

/-- C7 (amended): each of the two model rankings contains at most 10
groups even when more models exist, and is sorted in non-increasing
(weakly descending) order of its summed metric; strict descent cannot
hold in general because distinct models can tie on the summed metric. -/
theorem C7_top10_rankings (rows : List CanonicalRow) (m : String)
    (h : rows.filter (fun r => r.month = m) ≠ []) :
    ∃ T, plot_data rows m = .ok T ∧
      T.modelTokens.length ≤ 10 ∧ T.modelCost.length ≤ 10 ∧
      List.Sorted descVal T.modelTokens ∧ List.Sorted descVal T.modelCost := by
  have hne : (rows.filter fun r => r.month = m).isEmpty = false := by
    rcases hf : rows.filter fun r => r.month = m with _ | ⟨a, t⟩
    · exact absurd hf h
    · simp [hf]
  refine ⟨⟨(sortDesc (groupSum ((rows.filter fun r => r.month = m).map fun r => (r.model, r.total_tokens)))).take 10,
      (sortDesc (groupSum ((rows.filter fun r => r.month = m).map fun r => (r.model, r.total_cost)))).take 10,
      sortDesc (groupSum ((rows.filter fun r => r.month = m).map fun r => (r.user, r.total_cost))) ++
        [("Total",
          ((sortDesc (groupSum ((rows.filter fun r => r.month = m).map fun r => (r.user, r.total_cost)))).map
            Prod.snd).sum)]⟩, ?_, ?_, ?_, ?_, ?_⟩
  · simp only [plot_data, hne, Bool.false_eq_true, if_false]
  · exact le_trans (List.length_take_le _ _) (le_refl _)
  · exact le_trans (List.length_take_le _ _) (le_refl _)
  · exact (sorted_sortDesc _).sublist (List.take_sublist _ _)
  · exact (sorted_sortDesc _).sublist (List.take_sublist _ _)

/-- C7 witness at a concrete month with two models. -/
theorem C7_top10_rankings_witness :
    ∃ T, plot_data [⟨"2024-11", "a", 1, "u", 5⟩, ⟨"2024-11", "b", 2, "u", 7⟩] "2024-11" = .ok T ∧
      T.modelTokens.length ≤ 10 ∧ T.modelCost.length ≤ 10 ∧
      List.Sorted descVal T.modelTokens ∧ List.Sorted descVal T.modelCost :=
  C7_top10_rankings [⟨"2024-11", "a", 1, "u", 5⟩, ⟨"2024-11", "b", 2, "u", 7⟩] "2024-11" (by decide)

/-- C7 counterexample: with two models tied at 5 summed tokens the
model-tokens ranking is `[("a", 5), ("b", 5)]`, which is not strictly
descending — refuting "sorted strictly descending by its summed
metric". -/
theorem C7_not_strictly_descending_cex :
    modelTokensOf (plot_data [⟨"2024-11", "a", 1, "u", 5⟩, ⟨"2024-11", "b", 2, "u", 5⟩] "2024-11") =
      [("a", 5), ("b", 5)] ∧
    ¬ List.Pairwise (fun p q : String × ℚ => q.2 < p.2)
      (modelTokensOf (plot_data [⟨"2024-11", "a", 1, "u", 5⟩, ⟨"2024-11", "b", 2, "u", 5⟩] "2024-11")) := by
  have h : modelTokensOf (plot_data [⟨"2024-11", "a", 1, "u", 5⟩, ⟨"2024-11", "b", 2, "u", 5⟩] "2024-11") =
      [("a", 5), ("b", 5)] := by
    norm_num +decide [modelTokensOf, plot_data, sortDesc, groupSum, keysOf, fiberSum, descVal,
      List.insertionSort, List.orderedInsert, List.dedup, List.insert, List.filter]
  refine ⟨h, ?_⟩
  rw [h]
  intro hp
  rcases List.pairwise_cons.mp hp with ⟨h5, _⟩
  exact absurd (h5 ("b", 5) (List.mem_singleton.mpr rfl)) (lt_irrefl (5 : ℚ))

theorem digitVal_digitChar (d : Nat) (hd : d < 10) : digitVal? (digitChar d) = some d := by
  interval_cases d <;> rfl

theorem litC_cons_self (c : Char) (r : List Char) : litC c (c :: r) = some r := by
  simp [litC]

theorem read4_pad4 (y : Nat) (hy : y ≤ 9999) (r : List Char) :
    read4 (pad4Chars y ++ r) = some (y, r) := by
  have h1 : y / 1000 < 10 := by omega
  have h2 : y / 100 % 10 < 10 := Nat.mod_lt _ (by norm_num)
  have h3 : y / 10 % 10 < 10 := Nat.mod_lt _ (by norm_num)
  have h4 : y % 10 < 10 := Nat.mod_lt _ (by norm_num)
  have hy4 : ((y / 1000 * 10 + y / 100 % 10) * 10 + y / 10 % 10) * 10 + y % 10 = y := by omega
  simp only [pad4Chars, List.cons_append, List.nil_append, read4,
    digitVal_digitChar _ h1, digitVal_digitChar _ h2, digitVal_digitChar _ h3,
    digitVal_digitChar _ h4, hy4]

theorem readNum2or1_pad2 (twoOk oneOk : Nat → Bool) (n : Nat) (hn : n ≤ 99) (h2 : twoOk n = true)
    (r : List Char) :
    readNum2or1 twoOk oneOk (pad2Chars n ++ r) = some (n, r) := by
  have ha : n / 10 < 10 := by omega
  have hb : n % 10 < 10 := Nat.mod_lt _ (by norm_num)
  have hv : n / 10 * 10 + n % 10 = n := by omega
  simp only [pad2Chars, List.cons_append, List.nil_append, readNum2or1,
    digitVal_digitChar _ ha, digitVal_digitChar _ hb, hv, h2, if_true]

theorem readNum2or1_pad2_nil (twoOk oneOk : Nat → Bool) (n : Nat) (hn : n ≤ 99)
    (h2 : twoOk n = true) :
    readNum2or1 twoOk oneOk (pad2Chars n) = some (n, []) := by
  have h := readNum2or1_pad2 twoOk oneOk n hn h2 []
  simpa using h

theorem parseCore_canon (y mo d h mi s : Nat)
    (hy : y ≤ 9999) (hmo1 : 1 ≤ mo) (hmo2 : mo ≤ 12) (hd1 : 1 ≤ d) (hd2 : d ≤ 31)
    (hh : h ≤ 23) (hmi : mi ≤ 59) (hs : s ≤ 59) :
    parseCore (canonChars y mo d h mi s) = some (⟨y, mo, d, h, mi, s, 0⟩, []) := by
  have hmo : (decide (1 ≤ mo) && decide (mo ≤ 12)) = true := by
    simp only [Bool.and_eq_true, decide_eq_true_eq]
    exact ⟨hmo1, hmo2⟩
  have hd : (decide (1 ≤ d) && decide (d ≤ 31)) = true := by
    simp only [Bool.and_eq_true, decide_eq_true_eq]
    exact ⟨hd1, hd2⟩
  have hhb : (decide (h ≤ 23)) = true := by
    simp only [decide_eq_true_eq]
    exact hh
  have hmib : (decide (mi ≤ 59)) = true := by
    simp only [decide_eq_true_eq]
    exact hmi
  have hsb : (decide (s ≤ 61)) = true := by
    simp only [decide_eq_true_eq]
    omega
  simp only [canonChars, parseCore,
    read4_pad4 y hy,
    litC_cons_self,
    readNum2or1_pad2 (fun v => 1 ≤ v && v ≤ 12) (fun x => 1 ≤ x) mo (by omega) hmo,
    readNum2or1_pad2 (fun v => 1 ≤ v && v ≤ 31) (fun x => 1 ≤ x) d (by omega) hd,
    readNum2or1_pad2 (fun v => v ≤ 23) (fun _ => true) h (by omega) hhb,
    readNum2or1_pad2 (fun v => v ≤ 59) (fun _ => true) mi (by omega) hmib,
    readNum2or1_pad2_nil (fun v => v ≤ 61) (fun _ => true) s (by omega) hsb]

theorem natDigitsAux_irrel (f1 : Nat) :
    ∀ f2 n, n < f1 → n < f2 → natDigitsAux f1 n = natDigitsAux f2 n := by
  induction f1 with
  | zero =>
    intro f2 n h1 _
    omega
  | succ g ih =>
    intro f2 n h1 h2
    cases f2 with
    | zero => omega
    | succ k =>
      simp only [natDigitsAux]
      by_cases h10 : n < 10
      · simp [h10]
      · have hlt : n / 10 < n := Nat.div_lt_self (by omega) (by norm_num)
        simp only [h10, if_false]
        rw [ih k (n / 10) (by omega) (by omega)]

theorem natDigits_step (n : Nat) (hn : 10 ≤ n) :
    natDigits n = natDigits (n / 10) ++ [n % 10] := by
  have hlt : n / 10 < n := Nat.div_lt_self (by omega) (by norm_num)
  show natDigitsAux (n + 1) n = natDigitsAux (n / 10 + 1) (n / 10) ++ [n % 10]
  simp only [natDigitsAux]
  rw [if_neg (by omega)]
  congr 1
  exact natDigitsAux_irrel n (n / 10 + 1) (n / 10) (by omega) (by omega)

theorem natDigits_lt10 (n : Nat) (hn : n < 10) : natDigits n = [n] := by
  show natDigitsAux (n + 1) n = [n]
  simp [natDigitsAux, hn]

theorem natDigits_4digit (y : Nat) (h1 : 1000 ≤ y) (h2 : y ≤ 9999) :
    natDigits y = [y / 1000, y / 100 % 10, y / 10 % 10, y % 10] := by
  have e2 : y / 10 / 10 = y / 100 := by
    rw [Nat.div_div_eq_div_mul]
  have e3 : y / 100 / 10 = y / 1000 := by
    rw [Nat.div_div_eq_div_mul]
  rw [natDigits_step y (by omega)]
  rw [natDigits_step (y / 10) (by omega)]
  rw [e2]
  rw [natDigits_step (y / 100) (by omega)]
  rw [e3]
  rw [natDigits_lt10 (y / 1000) (by omega)]
  simp

theorem daysInMonth_le (y mo : Nat) : daysInMonth y mo ≤ 31 := by
  unfold daysInMonth
  repeat' split
  all_goals omega

theorem parseTs_canon (y mo d h mi s : Nat)
    (hy1 : 1 ≤ y) (hy2 : y ≤ 9999) (hmo1 : 1 ≤ mo) (hmo2 : mo ≤ 12)
    (hd1 : 1 ≤ d) (hd2 : d ≤ daysInMonth y mo) (hh : h ≤ 23) (hmi : mi ≤ 59) (hs : s ≤ 59) :
    parseTs (canonicalTs y mo d h mi s) = some ⟨y, mo, d, h, mi, s, 0⟩ := by
  have hd31 : d ≤ 31 := le_trans hd2 (daysInMonth_le y mo)
  have hcore : parseCore (canonChars y mo d h mi s) = some (⟨y, mo, d, h, mi, s, 0⟩, []) :=
    parseCore_canon y mo d h mi s hy2 hmo1 hmo2 hd1 hd31 hh hmi hs
  have hvalid : validDate ⟨y, mo, d, h, mi, s, 0⟩ = true := by
    simp only [validDate, Bool.and_eq_true, decide_eq_true_eq]
    refine ⟨⟨⟨⟨⟨⟨⟨⟨⟨hy1, hy2⟩, hmo1⟩, hmo2⟩, hd1⟩, hd2⟩, hh⟩, hmi⟩, hs⟩, by omega⟩
  have hdata : (canonicalTs y mo d h mi s).data = canonChars y mo d h mi s := rfl
  have hfrac : parseFmtFrac (canonicalTs y mo d h mi s) = none := by
    simp only [parseFmtFrac, hdata, hcore, litC]
  have hnofrac : parseFmtNoFrac (canonicalTs y mo d h mi s) = some ⟨y, mo, d, h, mi, s, 0⟩ := by
    simp only [parseFmtNoFrac, hdata, hcore, hvalid]
    simp
  simp [parseTs, hfrac, hnofrac, Option.orElse]

theorem strftimeYM_canon (y mo d h mi s : Nat) (hy1 : 1000 ≤ y) (hy2 : y ≤ 9999) :
    strftimeYM ⟨y, mo, d, h, mi, s, 0⟩ = firstChars 7 (canonicalTs y mo d h mi s) := by
  have ht : firstChars 7 (canonicalTs y mo d h mi s) =
      ⟨[digitChar (y / 1000), digitChar (y / 100 % 10), digitChar (y / 10 % 10), digitChar (y % 10),
        '-', digitChar (mo / 10), digitChar (mo % 10)]⟩ := rfl
  rw [ht]
  show decimalStr y ++ "-" ++ pad2 mo = _
  rw [decimalStr, natDigits_4digit y hy1 hy2]
  rfl

/-- C5 (amended): the timestamp is parsed with the ordered two-format
list (fractional first), and the derived `month` is the zero-padded
`YYYY-MM` of the parsed date. For a timestamp written in canonical
zero-padded form (with a year of at least 1000) this equals the first 7
characters of the string, and a timestamp matching neither format is
skipped with a diagnostic; but `strptime` also accepts non-zero-padded
fields (e.g. a one-digit month), for which the derived month is still
the padded `YYYY-MM` and so differs from the string's first 7
characters. -/
theorem C5_month_derivation (y mo d h mi s : Nat)
    (hy1 : 1000 ≤ y) (hy2 : y ≤ 9999) (hmo1 : 1 ≤ mo) (hmo2 : mo ≤ 12)
    (hd1 : 1 ≤ d) (hd2 : d ≤ daysInMonth y mo) (hh : h ≤ 23) (hmi : mi ≤ 59) (hs : s ≤ 59) :
    (parseTs (canonicalTs y mo d h mi s) = some ⟨y, mo, d, h, mi, s, 0⟩ ∧
     strftimeYM ⟨y, mo, d, h, mi, s, 0⟩ = firstChars 7 (canonicalTs y mo d h mi s)) ∧
    (∀ u fields ts, pyGet fields "timestamp" = some (.str ts) → ts ≠ "" → parseTs ts = none →
      processRecord u (.obj fields) = .skip (.invalidTimestampFormat ts)) := by
  refine ⟨⟨parseTs_canon y mo d h mi s (by omega) hy2 hmo1 hmo2 hd1 hd2 hh hmi hs,
    strftimeYM_canon y mo d h mi s hy1 hy2⟩, ?_⟩
  intro u fields ts hts hne hp
  simp [processRecord, hts, truthy, hne, hp]

/-- C5 witness: the canonical timestamp `2024-11-01T10:00:00` parses and
its derived month `"2024-11"` is its first 7 characters; an unparseable
timestamp is skipped with the invalid-format diagnostic. -/
theorem C5_month_derivation_witness :
    (parseTs (canonicalTs 2024 11 1 10 0 0) = some ⟨2024, 11, 1, 10, 0, 0, 0⟩ ∧
     strftimeYM ⟨2024, 11, 1, 10, 0, 0, 0⟩ = firstChars 7 (canonicalTs 2024 11 1 10 0 0)) ∧
    processRecord "u@x" (.obj [("timestamp", .str "not-a-date")]) =
      .skip (.invalidTimestampFormat "not-a-date") :=
  ⟨(C5_month_derivation 2024 11 1 10 0 0 (by norm_num) (by norm_num) (by norm_num) (by norm_num)
      (by norm_num) (by decide) (by norm_num) (by norm_num) (by norm_num)).1,
   (C5_month_derivation 2024 11 1 10 0 0 (by norm_num) (by norm_num) (by norm_num) (by norm_num)
      (by norm_num) (by decide) (by norm_num) (by norm_num) (by norm_num)).2
     "u@x" [("timestamp", .str "not-a-date")] "not-a-date" rfl (by decide) rfl⟩

/-- C5 counterexample: `strptime` accepts the non-zero-padded timestamp
`"2024-1-02T03:04:05"` (one-digit month), and the resulting row's
derived month is `"2024-01"`, which differs from the first 7 characters
`"2024-1-"` of the ISO date portion — refuting the claimed equality for
every parsed timestamp. -/
theorem C5_nonpadded_month_cex :
    parseTs "2024-1-02T03:04:05" = some ⟨2024, 1, 2, 3, 4, 5, 0⟩ ∧
    processItems [("u@x", .arr [.obj [("timestamp", .str "2024-1-02T03:04:05"), ("total_cost", .null)]])] =
      .ok ([⟨"2024-01", .str "Unknown Model", 0, "u@x", .int 0⟩], []) ∧
    firstChars 7 "2024-1-02T03:04:05" = "2024-1-" ∧
    strftimeYM ⟨2024, 1, 2, 3, 4, 5, 0⟩ ≠ firstChars 7 "2024-1-02T03:04:05" :=
  ⟨rfl, rfl, rfl, by decide⟩
